import Mathlib

set_option autoImplicit false

/-
Verification of the llama_cloud_services TypeScript job engine
(extract.ts / classify.ts / fileUpload.ts).

The remote API is modelled by finite response traces: each element of a
trace is the observable shape of one HTTP response (the `response.ok`
flag plus the optional parsed `data` payload).  Every loop of the source
is embedded as a structurally recursive function over such a trace,
returning the loop outcome together with the number of requests it
issued and the number of sleep calls it performed.  Since the source
loops are `while (true)` loops driven by the remote service, a trace
that ends before the loop does is reported with the model-only marker
`noResponse`.
-/

/-- Job status enumeration (`StatusEnum` of the generated API client):
PENDING, RUNNING, SUCCESS, PARTIAL_SUCCESS, ERROR, CANCELLED. -/
inductive StatusEnum where
  | PENDING
  | RUNNING
  | SUCCESS
  | PARTIAL_SUCCESS
  | ERROR
  | CANCELLED
deriving DecidableEq, Repr

/-- Observable shape of one HTTP response as the SDK loops consume it:
`response.response.ok` and the optional parsed payload `response.data`. -/
structure ApiResponse (α : Type) where
  ok : Bool
  data : Option α
deriving DecidableEq, Repr

/-- Errors thrown by the SDK code; each error constructor carries the thrown
message string.  `noResponse` is a model artifact marking that the finite
response trace ended while the source loop would still be waiting. -/
inductive SdkError where
  | inputError (msg : String)
  | retryExhausted (msg : String)
  | jobFailedError (msg : String)
  | timeoutError (msg : String)
  | noResponse
deriving DecidableEq, Repr

/-- Outcome of `pollForJobCompletion`: `succeeded` is `return true`,
`timedOut` is `return false`, `jobFailed` is the thrown error on
ERROR/CANCELLED status. -/
inductive PollOutcome where
  | succeeded
  | timedOut
  | jobFailed
  | noResponse
deriving DecidableEq, Repr

/-- One run of the polling loop: its outcome, the number of status requests
issued, and the number of sleep calls performed. -/
structure PollRun where
  outcome : PollOutcome
  requests : Nat
  sleeps : Nat
deriving DecidableEq, Repr

/-- The body of `pollForJobCompletion` from extract.ts (the classify.ts
copy is line-for-line identical up to the job-id path parameter and the
thrown message).  The loop keeps a `numIterations` counter; each pass
first checks `numIterations > maxIterations` (returning `false` on
exhaustion), then issues one status request; a non-ok response increments
the counter; a response with data throws on CANCELLED/ERROR, returns
`true` on SUCCESS, and otherwise increments the counter and sleeps. -/
def pollLoop (maxIterations : Nat) : Nat → List (ApiResponse StatusEnum) → PollRun
  | numIterations, [] =>
    if numIterations > maxIterations then ⟨.timedOut, 0, 0⟩ else ⟨.noResponse, 0, 0⟩
  | numIterations, r :: rest =>
    if numIterations > maxIterations then ⟨.timedOut, 0, 0⟩
    else
      let n1 := if r.ok then numIterations else numIterations + 1
      match r.data with
      | none =>
        let k := pollLoop maxIterations n1 rest
        ⟨k.outcome, k.requests + 1, k.sleeps⟩
      | some st =>
        if st = StatusEnum.CANCELLED ∨ st = StatusEnum.ERROR then ⟨.jobFailed, 1, 0⟩
        else if st = StatusEnum.SUCCESS then ⟨.succeeded, 1, 0⟩
        else
          let k := pollLoop maxIterations (n1 + 1) rest
          ⟨k.outcome, k.requests + 1, k.sleeps + 1⟩

/-- `pollForJobCompletion(jobId, interval, maxIterations)`: the loop starts
with `numIterations = 0`. -/
def pollForJobCompletion (maxIterations : Nat) (trace : List (ApiResponse StatusEnum)) : PollRun :=
  pollLoop maxIterations 0 trace

/-- Statuses on which the poll loop keeps iterating (every status other
than SUCCESS, ERROR and CANCELLED). -/
def isNonTerminalStatus : StatusEnum → Bool
  | .PENDING => true
  | .RUNNING => true
  | .PARTIAL_SUCCESS => true
  | .SUCCESS => false
  | .ERROR => false
  | .CANCELLED => false

/-- A successful (2xx) status response whose payload keeps the loop going. -/
def isOkNonTerminal (r : ApiResponse StatusEnum) : Bool :=
  r.ok && (match r.data with
    | some st => isNonTerminalStatus st
    | none => false)

/-- Any response on which the poll loop continues (no terminal status in
the payload): either no payload, or a non-terminal status. -/
def isContinuingResponse (r : ApiResponse StatusEnum) : Bool :=
  match r.data with
  | none => true
  | some st => isNonTerminalStatus st

/-- How much one continuing response advances the `numIterations` counter:
one for a non-ok response, plus one for a delivered non-terminal payload. -/
def pollIncr (r : ApiResponse StatusEnum) : Nat :=
  (if r.ok then 0 else 1) + (match r.data with
    | some _ => 1
    | none => 0)

/-- Total counter advance over a list of continuing responses. -/
def pollIncrs (l : List (ApiResponse StatusEnum)) : Nat :=
  (l.map pollIncr).sum

/-- The `data` payload of a job-creation response (`ExtractJob`): the fields
`createExtractJob` reads are `id` and `status`. -/
structure JobData where
  id : String
  status : StatusEnum
deriving DecidableEq, Repr

/-- Outcome of `createExtractJob`: the returned job id, or the throw after
the retry budget is exceeded. -/
inductive CreateJobOutcome where
  | created (id : String)
  | exhausted
  | noResponse
deriving DecidableEq, Repr

/-- One run of the job-creation loop: outcome, number of create requests
issued, and number of sleep calls performed. -/
structure CreateJobRun where
  outcome : CreateJobOutcome
  attempts : Nat
  sleeps : Nat
deriving DecidableEq, Repr

/-- The body of `createExtractJob` from extract.ts (the `stateless` flag
only selects which endpoint is called; the control flow is identical).
Each pass checks `retries > maxRetriesOnError` (throwing on exhaustion),
issues one create request, increments/sleeps on a non-ok response, and if
a payload is present: a CANCELLED or ERROR creation status increments the
counter and sleeps again (retryable), any other status returns the id. -/
def createExtractJobLoop (maxRetriesOnError : Nat) : Nat → List (ApiResponse JobData) → CreateJobRun
  | retries, [] =>
    if retries > maxRetriesOnError then ⟨.exhausted, 0, 0⟩ else ⟨.noResponse, 0, 0⟩
  | retries, r :: rest =>
    if retries > maxRetriesOnError then ⟨.exhausted, 0, 0⟩
    else
      let r1 := if r.ok then retries else retries + 1
      let s1 := if r.ok then 0 else 1
      match r.data with
      | none =>
        let k := createExtractJobLoop maxRetriesOnError r1 rest
        ⟨k.outcome, k.attempts + 1, k.sleeps + s1⟩
      | some job =>
        if job.status = StatusEnum.CANCELLED then
          let k := createExtractJobLoop maxRetriesOnError (r1 + 1) rest
          ⟨k.outcome, k.attempts + 1, k.sleeps + s1 + 1⟩
        else if job.status = StatusEnum.ERROR then
          let k := createExtractJobLoop maxRetriesOnError (r1 + 1) rest
          ⟨k.outcome, k.attempts + 1, k.sleeps + s1 + 1⟩
        else ⟨.created job.id, 1, s1⟩

/-- `createExtractJob(options, stateless, maxRetriesOnError, retryInterval)`:
the loop starts with `retries = 0`. -/
def createExtractJob (maxRetriesOnError : Nat) (trace : List (ApiResponse JobData)) : CreateJobRun :=
  createExtractJobLoop maxRetriesOnError 0 trace

/-- The raw result payload returned by the job-result endpoint; the fields
`getJobResult` reads are `data` and `extraction_metadata`. -/
structure RawJobResult where
  data : String
  extraction_metadata : String
deriving DecidableEq, Repr

/-- The public `ExtractResult` type: `getJobResult` renames
`extraction_metadata` to `extractionMetadata`. -/
structure ExtractResult where
  data : String
  extractionMetadata : String
deriving DecidableEq, Repr

/-- Outcome of `getJobResult`. -/
inductive FetchOutcome where
  | fetched (res : ExtractResult)
  | exhausted
  | noResponse
deriving DecidableEq, Repr

/-- One run of the result-fetch loop. -/
structure FetchRun where
  outcome : FetchOutcome
  attempts : Nat
  sleeps : Nat
deriving DecidableEq, Repr

/-- The body of `getJobResult` from extract.ts: each pass checks the retry
budget, issues one result request, increments/sleeps on a non-ok
response, and returns the normalized result as soon as a payload is
present. -/
def getJobResultLoop (maxRetriesOnError : Nat) : Nat → List (ApiResponse RawJobResult) → FetchRun
  | retries, [] =>
    if retries > maxRetriesOnError then ⟨.exhausted, 0, 0⟩ else ⟨.noResponse, 0, 0⟩
  | retries, r :: rest =>
    if retries > maxRetriesOnError then ⟨.exhausted, 0, 0⟩
    else
      let r1 := if r.ok then retries else retries + 1
      let s1 := if r.ok then 0 else 1
      match r.data with
      | some d => ⟨.fetched ⟨d.data, d.extraction_metadata⟩, 1, s1⟩
      | none =>
        let k := getJobResultLoop maxRetriesOnError r1 rest
        ⟨k.outcome, k.attempts + 1, k.sleeps + s1⟩

/-- `getJobResult(jobId, client, ...)`: the loop starts with `retries = 0`. -/
def getJobResult (maxRetriesOnError : Nat) (trace : List (ApiResponse RawJobResult)) : FetchRun :=
  getJobResultLoop maxRetriesOnError 0 trace

/-- The `ExtractAgent` payload; the fields the facade reads are `id` and
`name` (the schema is opaque to the loops). -/
structure AgentData where
  id : String
  name : String
deriving DecidableEq, Repr

/-- Outcome of `createAgent`: on an ok response the function returns
`response.data as ExtractAgent` (which may be undefined, hence the
`Option`). -/
inductive AgentOutcome where
  | returned (agent : Option AgentData)
  | exhausted
  | noResponse
deriving DecidableEq, Repr

/-- One run of the agent-creation loop. -/
structure AgentRun where
  outcome : AgentOutcome
  attempts : Nat
  sleeps : Nat
deriving DecidableEq, Repr

/-- The body of `createAgent` from extract.ts: each pass checks the retry
budget, issues one create request; a non-ok response increments the
counter and sleeps; an ok response returns `response.data` at once. -/
def createAgentLoop (maxRetriesOnError : Nat) : Nat → List (ApiResponse AgentData) → AgentRun
  | retries, [] =>
    if retries > maxRetriesOnError then ⟨.exhausted, 0, 0⟩ else ⟨.noResponse, 0, 0⟩
  | retries, r :: rest =>
    if retries > maxRetriesOnError then ⟨.exhausted, 0, 0⟩
    else if r.ok then ⟨.returned r.data, 1, 0⟩
    else
      let k := createAgentLoop maxRetriesOnError (retries + 1) rest
      ⟨k.outcome, k.attempts + 1, k.sleeps + 1⟩

/-- `createAgent(name, dataSchema, ...)`: the loop starts with `retries = 0`. -/
def createAgent (maxRetriesOnError : Nat) (trace : List (ApiResponse AgentData)) : AgentRun :=
  createAgentLoop maxRetriesOnError 0 trace

/-- Which agent-lookup endpoint a request of `getAgent` hits. -/
inductive AgentRequest where
  | byId (id : String)
  | byName (name : String)
deriving DecidableEq, Repr

/-- The thrown message of the agent retry loops in `getAgent`. -/
def getAgentRetryMsg : String :=
  "Error while getting the agent: Exceeded maximum number of retries, the API keeps returning errors."

/-- The retry loop shared by the three lookup branches of `getAgent`
(the by-id branch of the both-arguments case, the by-name branch, and the
by-id-only branch, whose doubled `ok` check is semantically identical):
returns the result together with the list of requests issued. -/
def getAgentLoop (req : AgentRequest) (maxRetriesOnError : Nat) :
    Nat → List (ApiResponse AgentData) → Except SdkError (Option AgentData) × List AgentRequest
  | retries, [] =>
    if retries > maxRetriesOnError then (.error (.retryExhausted getAgentRetryMsg), [])
    else (.error .noResponse, [])
  | retries, r :: rest =>
    if retries > maxRetriesOnError then (.error (.retryExhausted getAgentRetryMsg), [])
    else if r.ok then (.ok r.data, [req])
    else
      let k := getAgentLoop req maxRetriesOnError (retries + 1) rest
      (k.1, req :: k.2)

/-- One run of `getAgent`: its result, the lookup requests issued, and
whether the both-arguments warning was emitted. -/
structure GetAgentRun where
  result : Except SdkError (Option AgentData)
  requests : List AgentRequest
  warned : Bool
deriving Repr

/-- `getAgent(id, name, ...)` from extract.ts: with neither argument it
throws at once; with both it emits a warning and looks up by id only;
with exactly one it looks up by that identifier. -/
def getAgent (id name : Option String) (maxRetriesOnError : Nat)
    (trace : List (ApiResponse AgentData)) : GetAgentRun :=
  match id, name with
  | none, none =>
    ⟨.error (.inputError "One of `id` and `string` must be passed."), [], false⟩
  | some i, some _ =>
    let k := getAgentLoop (.byId i) maxRetriesOnError 0 trace
    ⟨k.1, k.2, true⟩
  | none, some n =>
    let k := getAgentLoop (.byName n) maxRetriesOnError 0 trace
    ⟨k.1, k.2, false⟩
  | some i, none =>
    let k := getAgentLoop (.byId i) maxRetriesOnError 0 trace
    ⟨k.1, k.2, false⟩

/-- The `fileContent` argument of `uploadFile`: a pre-built File object, a
Buffer, a Uint8Array, or a text string. -/
inductive FileContent where
  | fileObj
  | fileBuffer
  | fileBytes
  | fileText (text : String)
deriving DecidableEq, Repr

/-- Which input source `uploadFile` built its upload from. -/
inductive UploadSource where
  | fromPath (p : String)
  | fromContent (c : FileContent)
deriving DecidableEq, Repr

/-- The thrown message of the upload retry loop. -/
def uploadRetryMsg : String :=
  "Error while processing your file: Exceeded maximum number of retries, the API keeps returning errors."

/-- One run of `uploadFile`: its result, the number of upload POST calls
issued, and the input source the file was built from (none when the call
failed before building a file). -/
structure UploadRun where
  result : Except SdkError String
  uploads : Nat
  source : Option UploadSource
deriving Repr

/-- The upload retry loop of `uploadFile` (fileUpload.ts): each pass checks
the retry budget, issues one upload POST; a non-ok response increments the
counter and sleeps; an ok response with a payload returns its id. -/
def uploadLoop (src : UploadSource) (maxRetriesOnError : Nat) :
    Nat → List (ApiResponse String) → UploadRun
  | retries, [] =>
    if retries > maxRetriesOnError then ⟨.error (.retryExhausted uploadRetryMsg), 0, some src⟩
    else ⟨.error .noResponse, 0, some src⟩
  | retries, r :: rest =>
    if retries > maxRetriesOnError then ⟨.error (.retryExhausted uploadRetryMsg), 0, some src⟩
    else if r.ok then
      match r.data with
      | some id => ⟨.ok id, 1, some src⟩
      | none =>
        let k := uploadLoop src maxRetriesOnError retries rest
        ⟨k.result, k.uploads + 1, k.source⟩
    else
      let k := uploadLoop src maxRetriesOnError (retries + 1) rest
      ⟨k.result, k.uploads + 1, k.source⟩

/-- `uploadFile` (fileUpload.ts, and the inline copy in extract.ts): with
neither `filePath` nor `fileContent` it throws before any network call;
otherwise the `filePath` branch is tried first (`else if`), so a supplied
path wins even when `fileContent` is also supplied; the built file is
then posted through the retry loop. -/
def uploadFile (filePath : Option String) (fileContent : Option FileContent)
    (maxRetriesOnError : Nat) (trace : List (ApiResponse String)) : UploadRun :=
  match filePath, fileContent with
  | none, none =>
    ⟨.error (.inputError "One between filePath and fileContent needs to be provided"), 0, none⟩
  | some p, _ => uploadLoop (.fromPath p) maxRetriesOnError 0 trace
  | none, some c => uploadLoop (.fromContent c) maxRetriesOnError 0 trace

/-- The thrown message of the job-creation retry loop. -/
def jobCreateRetryMsg : String :=
  "Error while creating the extraction job: Exceeded maximum number of retries, the API keeps returning errors."

/-- The thrown message of the result-fetch retry loop. -/
def resultRetryMsg : String :=
  "Error while getting the result of the extraction job: Exceeded maximum number of retries, the API keeps returning errors."

/-- The message thrown by the poll loop on an ERROR or CANCELLED status. -/
def jobFailedMsg : String := "There was an error extracting data from your file."

/-- The message thrown by `extract` when `pollForJobCompletion` returns false. -/
def timeoutMsg : String := "Your job is taking longer than 10 minutes, timing out..."

/-- The `extract` facade from extract.ts (`extractStateless` is the same
composition with the stateless job-creation endpoint): upload the file,
create the job, poll; when the poll returns false throw the timeout
error, otherwise fetch and return the result.  Each stage consumes its
own response trace. -/
def extract (filePath : Option String) (fileContent : Option FileContent)
    (uploadTrace : List (ApiResponse String))
    (createTrace : List (ApiResponse JobData))
    (pollTrace : List (ApiResponse StatusEnum))
    (resultTrace : List (ApiResponse RawJobResult))
    (maxPollingIterations maxRetriesOnError : Nat) : Except SdkError ExtractResult :=
  match (uploadFile filePath fileContent maxRetriesOnError uploadTrace).result with
  | .error e => .error e
  | .ok _ =>
    match (createExtractJob maxRetriesOnError createTrace).outcome with
    | .exhausted => .error (.retryExhausted jobCreateRetryMsg)
    | .noResponse => .error .noResponse
    | .created _ =>
      match (pollForJobCompletion maxPollingIterations pollTrace).outcome with
      | .jobFailed => .error (.jobFailedError jobFailedMsg)
      | .noResponse => .error .noResponse
      | .timedOut => .error (.timeoutError timeoutMsg)
      | .succeeded =>
        match (getJobResult maxRetriesOnError resultTrace).outcome with
        | .fetched res => .ok res
        | .exhausted => .error (.retryExhausted resultRetryMsg)
        | .noResponse => .error .noResponse

/-- How `classify` (classify.ts) observes one `uploadFile` call: the
`try/catch` turns a thrown error into `null`, and a falsy returned id
(undefined or the empty string) is logged and mapped to `null` as well;
a truthy id is kept. -/
def classifyAttemptId : Except SdkError String → Option String
  | .error _ => none
  | .ok id => if id = "" then none else some id

/-- Where the upload phase of `classify` ends up: the initial no-inputs
throw, the all-uploads-failed throw, or the job creation with the
collected file ids. -/
inductive ClassifyPhase where
  | noInputs
  | allUploadsFailed
  | jobCreated (fileIds : List String)
deriving DecidableEq, Repr

/-- The upload phase of `classify` from classify.ts: with neither
`filePaths` nor `fileContents` it throws at once; otherwise it uploads
every path, then every content, keeps the truthy ids (paths first), and
throws before job creation exactly when no id survived.  Each list entry
here is the observed outcome of the corresponding `uploadFile` call. -/
def classifyUploadPhase (filePaths fileContents : Option (List (Except SdkError String))) :
    ClassifyPhase :=
  match filePaths, fileContents with
  | none, none => .noInputs
  | _, _ =>
    let fileIds := (filePaths.getD []).filterMap classifyAttemptId ++
      (fileContents.getD []).filterMap classifyAttemptId
    if fileIds = [] then .allUploadsFailed else .jobCreated fileIds

/-- Modelled from the spec: the backoff patterns of the parse poller.  The
reader that owns `backoffPattern`, `checkInterval` and `maxCheckInterval`
(reader.ts / LlamaParseReader) is absent from the sources; only its tests
are present, and they pin the three pattern names without exercising the
delay arithmetic.  Following the spec: constant keeps a fixed interval,
linear grows the interval by a fixed step each iteration capped at
`maxIntervalSeconds`, exponential doubles it each iteration, capped. -/
inductive BackoffPattern where
  | constant
  | linear
  | exponential
deriving DecidableEq, Repr

/-- Modelled from the spec: one backoff update of the inter-poll interval
(applied between iterations by the missing reader poller). -/
def nextCheckInterval (pattern : BackoffPattern) (step cap d : Rat) : Rat :=
  match pattern with
  | .constant => d
  | .linear => min (d + step) cap
  | .exponential => min (d * 2) cap

/-- Modelled from the spec: the delay the poller uses before iteration
`k`, starting from the configured base interval and updating it once per
iteration. -/
def checkIntervalAt (pattern : BackoffPattern) (base step cap : Rat) : Nat → Rat
  | 0 => base
  | k + 1 => nextCheckInterval pattern step cap (checkIntervalAt pattern base step cap k)

/-- Exhausted iteration budget: once the counter exceeds `maxIterations`
the poll loop returns false without issuing further requests. -/
theorem pollLoop_budget (maxIterations n : Nat) (trace : List (ApiResponse StatusEnum))
    (h : maxIterations < n) : pollLoop maxIterations n trace = ⟨.timedOut, 0, 0⟩ := by
  cases trace <;> simp [pollLoop, h]

/-- Step of the poll loop on an ok response with a non-terminal status:
one request, one sleep, counter advanced by one. -/
theorem pollLoop_oknt_step (maxIterations n : Nat) (st : StatusEnum)
    (rest : List (ApiResponse StatusEnum))
    (hst : isNonTerminalStatus st = true) (hn : n ≤ maxIterations) :
    pollLoop maxIterations n (⟨true, some st⟩ :: rest) =
      ⟨(pollLoop maxIterations (n + 1) rest).outcome,
        (pollLoop maxIterations (n + 1) rest).requests + 1,
        (pollLoop maxIterations (n + 1) rest).sleeps + 1⟩ := by
  cases st <;> simp_all [pollLoop, isNonTerminalStatus, not_lt.mpr hn]

/-- Step of the poll loop on any continuing response: one request is
issued and the loop goes on with the counter advanced by `pollIncr`. -/
theorem pollLoop_continuing_step (maxIterations n : Nat) (r : ApiResponse StatusEnum)
    (rest : List (ApiResponse StatusEnum))
    (hr : isContinuingResponse r = true) (hn : n ≤ maxIterations) :
    (pollLoop maxIterations n (r :: rest)).outcome =
      (pollLoop maxIterations (n + pollIncr r) rest).outcome ∧
    (pollLoop maxIterations n (r :: rest)).requests =
      (pollLoop maxIterations (n + pollIncr r) rest).requests + 1 := by
  obtain ⟨ok, data⟩ := r
  cases data with
  | none =>
    cases ok <;>
      simp [pollLoop, pollIncr, not_lt.mpr hn]
  | some st =>
    have hst : isNonTerminalStatus st = true := by
      simpa [isContinuingResponse] using hr
    cases ok <;> cases st <;>
      simp_all [pollLoop, pollIncr, isNonTerminalStatus, not_lt.mpr hn]

/-- A status source that keeps answering ok non-terminal responses drives
the loop to the timeout return after exactly `k + 1` requests and
`k + 1` sleeps, where `k` is the remaining iteration budget. -/
theorem pollLoop_nonterminal_timeout (k : Nat) :
    ∀ (n maxIterations : Nat) (trace : List (ApiResponse StatusEnum)),
    maxIterations = n + k →
    (∀ r ∈ trace, isOkNonTerminal r = true) →
    k + 1 ≤ trace.length →
    pollLoop maxIterations n trace = ⟨.timedOut, k + 1, k + 1⟩ := by
  induction k with
  | zero =>
    intro n maxIterations trace hmax hall hlen
    cases trace with
    | nil => simp at hlen
    | cons r rest =>
      obtain ⟨ok, data⟩ := r
      have h := hall _ (List.mem_cons_self _ _)
      cases data with
      | none => simp [isOkNonTerminal] at h
      | some st =>
        have hok : ok = true ∧ isNonTerminalStatus st = true := by
          simpa [isOkNonTerminal, Bool.and_eq_true] using h
        rw [hok.1, pollLoop_oknt_step _ _ _ _ hok.2 (by omega),
          pollLoop_budget _ _ _ (by omega)]
  | succ k ih =>
    intro n maxIterations trace hmax hall hlen
    cases trace with
    | nil => simp at hlen
    | cons r rest =>
      obtain ⟨ok, data⟩ := r
      have h := hall _ (List.mem_cons_self _ _)
      cases data with
      | none => simp [isOkNonTerminal] at h
      | some st =>
        have hok : ok = true ∧ isNonTerminalStatus st = true := by
          simpa [isOkNonTerminal, Bool.and_eq_true] using h
        have hn : n ≤ maxIterations := by omega
        have hrest : pollLoop maxIterations (n + 1) rest = ⟨.timedOut, k + 1, k + 1⟩ := by
          apply ih (n + 1) maxIterations rest (by omega)
            (fun r hr => hall r (List.mem_cons_of_mem _ hr))
          simpa using Nat.succ_le_succ_iff.mp hlen
        rw [hok.1, pollLoop_oknt_step _ _ _ _ hok.2 hn, hrest]

/-- Counter advance over a cons of continuing responses. -/
theorem pollIncrs_cons (s : ApiResponse StatusEnum) (l : List (ApiResponse StatusEnum)) :
    pollIncrs (s :: l) = pollIncr s + pollIncrs l := by
  simp [pollIncrs]

/-- After a prefix of continuing responses that leaves budget, a response
carrying ERROR or CANCELLED makes the loop throw at once: the request
that delivered it is the last one issued. -/
theorem pollLoop_failfast (N : Nat) (pre : List (ApiResponse StatusEnum)) :
    ∀ (n : Nat) (r : ApiResponse StatusEnum) (rest : List (ApiResponse StatusEnum)),
    (∀ s ∈ pre, isContinuingResponse s = true) →
    (r.data = some .ERROR ∨ r.data = some .CANCELLED) →
    n + pollIncrs pre ≤ N →
    (pollLoop N n (pre ++ r :: rest)).outcome = .jobFailed ∧
    (pollLoop N n (pre ++ r :: rest)).requests = pre.length + 1 := by
  induction pre with
  | nil =>
    intro n r rest _ hr hbudget
    obtain ⟨ok, data⟩ := r
    have hn : ¬ N < n := by simp [pollIncrs] at hbudget; omega
    rcases hr with h | h <;> simp at h <;> subst h <;> simp [pollLoop, hn]
  | cons s pre ih =>
    intro n r rest hpre hr hbudget
    have hs := hpre s (List.mem_cons_self _ _)
    have hn : n ≤ N := by
      rw [pollIncrs_cons] at hbudget; omega
    have hstep := pollLoop_continuing_step N n s (pre ++ r :: rest) hs hn
    have hih := ih (n + pollIncr s) r rest
      (fun x hx => hpre x (List.mem_cons_of_mem _ hx)) hr
      (by rw [pollIncrs_cons] at hbudget; omega)
    simp only [List.cons_append, List.length_cons]
    refine ⟨hstep.1.trans hih.1, ?_⟩
    rw [hstep.2, hih.2]

/-- C2 counterexample: with `maxIterations = 1` and a status source that
never returns a terminal state, the poller issues 2 status requests, not
the exactly 1 the claim demands. -/
theorem poll_exact_budget_cex :
    pollForJobCompletion 1
      [⟨true, some .PENDING⟩, ⟨true, some .PENDING⟩, ⟨true, some .PENDING⟩] =
      ⟨.timedOut, 2, 2⟩ ∧ (2 : Nat) ≠ 1 := by
  exact ⟨by decide, by decide⟩

/-- C2 (amended): with `maxIterations = N` and a status source that keeps
answering successful non-terminal responses, the poll loop issues exactly
N + 1 status requests (one per counter value 0..N), sleeping after each,
then returns false, upon which the `extract` facade raises the timeout
error rather than returning silently. -/
theorem poll_budget_requests_and_timeout (N maxRetriesOnError : Nat)
    (trace : List (ApiResponse StatusEnum)) (fid jid : String)
    (resultTrace : List (ApiResponse RawJobResult))
    (hall : ∀ r ∈ trace, isOkNonTerminal r = true)
    (hlen : N + 1 ≤ trace.length) :
    pollForJobCompletion N trace = ⟨.timedOut, N + 1, N + 1⟩ ∧
    extract (some "file.pdf") none [⟨true, some fid⟩] [⟨true, some ⟨jid, .PENDING⟩⟩]
      trace resultTrace N maxRetriesOnError = .error (.timeoutError timeoutMsg) := by
  have hpoll : pollForJobCompletion N trace = ⟨.timedOut, N + 1, N + 1⟩ :=
    pollLoop_nonterminal_timeout N 0 N trace (by omega) hall hlen
  refine ⟨hpoll, ?_⟩
  simp [extract, uploadFile, uploadLoop, createExtractJob, createExtractJobLoop,
    Nat.not_lt_zero, hpoll]

/-- Witness for the amended C2 theorem at `N = 1`. -/
theorem poll_budget_requests_and_timeout_witness :
    pollForJobCompletion 1
      [⟨true, some .PENDING⟩, ⟨true, some .RUNNING⟩, ⟨true, some .PENDING⟩] =
      ⟨.timedOut, 2, 2⟩ ∧
    extract (some "file.pdf") none [⟨true, some "f-1"⟩] [⟨true, some ⟨"j-1", .PENDING⟩⟩]
      [⟨true, some .PENDING⟩, ⟨true, some .RUNNING⟩, ⟨true, some .PENDING⟩]
      [⟨true, some ⟨"d", "m"⟩⟩] 1 10 = .error (.timeoutError timeoutMsg) :=
  poll_budget_requests_and_timeout 1 10
    [⟨true, some .PENDING⟩, ⟨true, some .RUNNING⟩, ⟨true, some .PENDING⟩]
    "f-1" "j-1" [⟨true, some ⟨"d", "m"⟩⟩] (by decide) (by decide)

/-- C1 counterexample: a status source returning PARTIAL_SUCCESS is not
treated as terminal-success: with `maxIterations = 1` the poller issues a
second request after the first PARTIAL_SUCCESS instead of stopping, and
the `extract` facade raises the timeout error instead of returning a
`JobResult`. -/
theorem poll_partial_success_cex :
    pollForJobCompletion 1 [⟨true, some .PARTIAL_SUCCESS⟩, ⟨true, some .PARTIAL_SUCCESS⟩] =
      ⟨.timedOut, 2, 2⟩ ∧
    extract (some "file.pdf") none [⟨true, some "f-1"⟩] [⟨true, some ⟨"j-1", .PENDING⟩⟩]
      [⟨true, some .PARTIAL_SUCCESS⟩, ⟨true, some .PARTIAL_SUCCESS⟩]
      [⟨true, some ⟨"d", "m"⟩⟩] 1 10 = .error (.timeoutError timeoutMsg) := by
  exact ⟨by decide, by rfl⟩

/-- C1 (amended): the pollers treat PARTIAL_SUCCESS as non-terminal: on a
PARTIAL_SUCCESS status response the loop advances the counter, sleeps and
keeps issuing requests, and a source that keeps returning PARTIAL_SUCCESS
exhausts the iteration budget, after which `extract` raises the timeout
error; a `JobResult` is returned only once SUCCESS is observed. -/
theorem poll_partial_success_nonterminal (N n maxRetriesOnError : Nat)
    (rest trace : List (ApiResponse StatusEnum)) (fid jid : String)
    (resultTrace : List (ApiResponse RawJobResult))
    (hn : n ≤ N)
    (hall : ∀ r ∈ trace, r = ⟨true, some .PARTIAL_SUCCESS⟩)
    (hlen : N + 1 ≤ trace.length) :
    pollLoop N n (⟨true, some .PARTIAL_SUCCESS⟩ :: rest) =
      ⟨(pollLoop N (n + 1) rest).outcome, (pollLoop N (n + 1) rest).requests + 1,
        (pollLoop N (n + 1) rest).sleeps + 1⟩ ∧
    pollForJobCompletion N trace = ⟨.timedOut, N + 1, N + 1⟩ ∧
    extract (some "file.pdf") none [⟨true, some fid⟩] [⟨true, some ⟨jid, .PENDING⟩⟩]
      trace resultTrace N maxRetriesOnError = .error (.timeoutError timeoutMsg) := by
  have hall2 : ∀ r ∈ trace, isOkNonTerminal r = true := fun r hr => by
    rw [hall r hr]; rfl
  have hpoll : pollForJobCompletion N trace = ⟨.timedOut, N + 1, N + 1⟩ :=
    pollLoop_nonterminal_timeout N 0 N trace (by omega) hall2 hlen
  refine ⟨pollLoop_oknt_step N n .PARTIAL_SUCCESS rest rfl hn, hpoll, ?_⟩
  simp [extract, uploadFile, uploadLoop, createExtractJob, createExtractJobLoop,
    Nat.not_lt_zero, hpoll]

/-- Witness for the amended C1 theorem at `N = 1`. -/
theorem poll_partial_success_nonterminal_witness :
    pollLoop 1 0 [⟨true, some .PARTIAL_SUCCESS⟩] =
      ⟨(pollLoop 1 1 []).outcome, (pollLoop 1 1 []).requests + 1,
        (pollLoop 1 1 []).sleeps + 1⟩ ∧
    pollForJobCompletion 1 [⟨true, some .PARTIAL_SUCCESS⟩, ⟨true, some .PARTIAL_SUCCESS⟩] =
      ⟨.timedOut, 2, 2⟩ ∧
    extract (some "file.pdf") none [⟨true, some "f-1"⟩] [⟨true, some ⟨"j-1", .PENDING⟩⟩]
      [⟨true, some .PARTIAL_SUCCESS⟩, ⟨true, some .PARTIAL_SUCCESS⟩]
      [⟨true, some ⟨"d", "m"⟩⟩] 1 10 = .error (.timeoutError timeoutMsg) :=
  poll_partial_success_nonterminal 1 0 10 []
    [⟨true, some .PARTIAL_SUCCESS⟩, ⟨true, some .PARTIAL_SUCCESS⟩]
    "f-1" "j-1" [⟨true, some ⟨"d", "m"⟩⟩] (by decide) (by decide) (by decide)

/-- C7: once a status response delivers ERROR or CANCELLED, the poll loop
throws the job-failed error immediately: after any prefix of continuing
responses that leaves iteration budget, the request that delivered the
terminal-failure status is the last one issued, and the `extract` facade
propagates the job-failed error. -/
theorem poll_terminal_failure_immediate (N n maxRetriesOnError : Nat)
    (pre rest : List (ApiResponse StatusEnum)) (r : ApiResponse StatusEnum)
    (fid jid : String) (resultTrace : List (ApiResponse RawJobResult))
    (hpre : ∀ s ∈ pre, isContinuingResponse s = true)
    (hr : r.data = some .ERROR ∨ r.data = some .CANCELLED)
    (hbudget : n + pollIncrs pre ≤ N) :
    (pollLoop N n (pre ++ r :: rest)).outcome = .jobFailed ∧
    (pollLoop N n (pre ++ r :: rest)).requests = pre.length + 1 ∧
    extract (some "file.pdf") none [⟨true, some fid⟩] [⟨true, some ⟨jid, .PENDING⟩⟩]
      (pre ++ r :: rest) resultTrace N maxRetriesOnError =
      .error (.jobFailedError jobFailedMsg) := by
  have h := pollLoop_failfast N pre n r rest hpre hr hbudget
  have h0 := pollLoop_failfast N pre 0 r rest hpre hr (by omega)
  have hout : (pollForJobCompletion N (pre ++ r :: rest)).outcome = .jobFailed := h0.1
  refine ⟨h.1, h.2, ?_⟩
  simp [extract, uploadFile, uploadLoop, createExtractJob, createExtractJobLoop,
    Nat.not_lt_zero, hout]

/-- Witness for the C7 theorem after a two-response continuing prefix. -/
theorem poll_terminal_failure_immediate_witness :
    (pollLoop 3 0 ([⟨true, some .PENDING⟩, ⟨false, none⟩] ++
      ⟨true, some .ERROR⟩ :: [⟨true, some .SUCCESS⟩])).outcome = .jobFailed ∧
    (pollLoop 3 0 ([⟨true, some .PENDING⟩, ⟨false, none⟩] ++
      ⟨true, some .ERROR⟩ :: [⟨true, some .SUCCESS⟩])).requests = 2 + 1 ∧
    extract (some "file.pdf") none [⟨true, some "f-1"⟩] [⟨true, some ⟨"j-1", .PENDING⟩⟩]
      ([⟨true, some .PENDING⟩, ⟨false, none⟩] ++ ⟨true, some .ERROR⟩ :: [⟨true, some .SUCCESS⟩])
      [⟨true, some ⟨"d", "m"⟩⟩] 3 10 = .error (.jobFailedError jobFailedMsg) := by
  have h := poll_terminal_failure_immediate 3 0 10
    [⟨true, some .PENDING⟩, ⟨false, none⟩] [⟨true, some .SUCCESS⟩]
    ⟨true, some .ERROR⟩ "f-1" "j-1" [⟨true, some ⟨"d", "m"⟩⟩]
    (by decide) (by decide) (by decide)
  exact ⟨h.1, by simpa using h.2.1, h.2.2⟩

/-- C8: a transiently failing status request (non-ok response without a
payload) advances the same `numIterations` counter a successful
non-terminal poll advances, and the loop continues with one more request
issued against the same `maxIterations` budget; no separate retry budget
is involved and the loop is not aborted. -/
theorem poll_transient_failure_counted (N n : Nat) (rest : List (ApiResponse StatusEnum))
    (hn : n ≤ N) :
    pollLoop N n (⟨false, none⟩ :: rest) =
      ⟨(pollLoop N (n + 1) rest).outcome, (pollLoop N (n + 1) rest).requests + 1,
        (pollLoop N (n + 1) rest).sleeps⟩ ∧
    pollLoop N n (⟨true, some .PENDING⟩ :: rest) =
      ⟨(pollLoop N (n + 1) rest).outcome, (pollLoop N (n + 1) rest).requests + 1,
        (pollLoop N (n + 1) rest).sleeps + 1⟩ := by
  constructor
  · simp [pollLoop, not_lt.mpr hn]
  · exact pollLoop_oknt_step N n .PENDING rest rfl hn

/-- Witness for the C8 theorem at counter value 1 of budget 2. -/
theorem poll_transient_failure_counted_witness :
    pollLoop 2 1 (⟨false, none⟩ :: [⟨true, some .SUCCESS⟩]) =
      ⟨(pollLoop 2 2 [⟨true, some .SUCCESS⟩]).outcome,
        (pollLoop 2 2 [⟨true, some .SUCCESS⟩]).requests + 1,
        (pollLoop 2 2 [⟨true, some .SUCCESS⟩]).sleeps⟩ ∧
    pollLoop 2 1 (⟨true, some .PENDING⟩ :: [⟨true, some .SUCCESS⟩]) =
      ⟨(pollLoop 2 2 [⟨true, some .SUCCESS⟩]).outcome,
        (pollLoop 2 2 [⟨true, some .SUCCESS⟩]).requests + 1,
        (pollLoop 2 2 [⟨true, some .SUCCESS⟩]).sleeps + 1⟩ :=
  poll_transient_failure_counted 2 1 [⟨true, some .SUCCESS⟩] (by decide)

/-- Exhausted retry budget of the agent-creation loop. -/
theorem createAgentLoop_budget (maxR retries : Nat) (trace : List (ApiResponse AgentData))
    (h : maxR < retries) : createAgentLoop maxR retries trace = ⟨.exhausted, 0, 0⟩ := by
  cases trace <;> simp [createAgentLoop, h]

/-- Step of the agent-creation loop on a failed attempt. -/
theorem createAgentLoop_fail_step (maxR retries : Nat) (rest : List (ApiResponse AgentData))
    (hn : retries ≤ maxR) :
    createAgentLoop maxR retries (⟨false, none⟩ :: rest) =
      ⟨(createAgentLoop maxR (retries + 1) rest).outcome,
        (createAgentLoop maxR (retries + 1) rest).attempts + 1,
        (createAgentLoop maxR (retries + 1) rest).sleeps + 1⟩ := by
  simp [createAgentLoop, not_lt.mpr hn]

/-- The agent-creation loop under a run of failing attempts that spends
the whole budget: one attempt per counter value `retries`..`maxR`, then
the throw, regardless of any later responses. -/
theorem createAgentLoop_allFail (maxR : Nat) :
    ∀ (j retries : Nat) (rest : List (ApiResponse AgentData)), retries + j = maxR + 1 →
    createAgentLoop maxR retries (List.replicate j ⟨false, none⟩ ++ rest) =
      ⟨.exhausted, j, j⟩ := by
  intro j
  induction j with
  | zero =>
    intro retries rest h
    simpa using createAgentLoop_budget maxR retries rest (by omega)
  | succ j ih =>
    intro retries rest h
    rw [List.replicate_succ, List.cons_append,
      createAgentLoop_fail_step maxR retries _ (by omega),
      ih (retries + 1) rest (by omega)]

/-- The agent-creation loop under `k` failing attempts followed by an ok
response: returns its payload after `k + 1` attempts and `k` sleeps (the
counter moves only on failures). -/
theorem createAgentLoop_succeeds (maxR : Nat) :
    ∀ (k retries : Nat) (a : Option AgentData) (rest : List (ApiResponse AgentData)),
    retries + k ≤ maxR →
    createAgentLoop maxR retries (List.replicate k ⟨false, none⟩ ++ ⟨true, a⟩ :: rest) =
      ⟨.returned a, k + 1, k⟩ := by
  intro k
  induction k with
  | zero =>
    intro retries a rest h
    simpa using by simp [createAgentLoop, not_lt.mpr (by omega : retries ≤ maxR)]
  | succ k ih =>
    intro retries a rest h
    rw [List.replicate_succ, List.cons_append,
      createAgentLoop_fail_step maxR retries _ (by omega),
      ih (retries + 1) a rest (by omega)]

/-- Exhausted retry budget of the result-fetch loop. -/
theorem getJobResultLoop_budget (maxR retries : Nat) (trace : List (ApiResponse RawJobResult))
    (h : maxR < retries) : getJobResultLoop maxR retries trace = ⟨.exhausted, 0, 0⟩ := by
  cases trace <;> simp [getJobResultLoop, h]

/-- Step of the result-fetch loop on a failed attempt. -/
theorem getJobResultLoop_fail_step (maxR retries : Nat)
    (rest : List (ApiResponse RawJobResult)) (hn : retries ≤ maxR) :
    getJobResultLoop maxR retries (⟨false, none⟩ :: rest) =
      ⟨(getJobResultLoop maxR (retries + 1) rest).outcome,
        (getJobResultLoop maxR (retries + 1) rest).attempts + 1,
        (getJobResultLoop maxR (retries + 1) rest).sleeps + 1⟩ := by
  simp [getJobResultLoop, not_lt.mpr hn]

/-- The result-fetch loop under a budget-spending run of failing attempts. -/
theorem getJobResultLoop_allFail (maxR : Nat) :
    ∀ (j retries : Nat) (rest : List (ApiResponse RawJobResult)), retries + j = maxR + 1 →
    getJobResultLoop maxR retries (List.replicate j ⟨false, none⟩ ++ rest) =
      ⟨.exhausted, j, j⟩ := by
  intro j
  induction j with
  | zero =>
    intro retries rest h
    simpa using getJobResultLoop_budget maxR retries rest (by omega)
  | succ j ih =>
    intro retries rest h
    rw [List.replicate_succ, List.cons_append,
      getJobResultLoop_fail_step maxR retries _ (by omega),
      ih (retries + 1) rest (by omega)]

/-- The result-fetch loop under `k` failing attempts followed by a
successful response carrying the payload. -/
theorem getJobResultLoop_succeeds (maxR : Nat) :
    ∀ (k retries : Nat) (d : RawJobResult) (rest : List (ApiResponse RawJobResult)),
    retries + k ≤ maxR →
    getJobResultLoop maxR retries (List.replicate k ⟨false, none⟩ ++ ⟨true, some d⟩ :: rest) =
      ⟨.fetched ⟨d.data, d.extraction_metadata⟩, k + 1, k⟩ := by
  intro k
  induction k with
  | zero =>
    intro retries d rest h
    simpa using by simp [getJobResultLoop, not_lt.mpr (by omega : retries ≤ maxR)]
  | succ k ih =>
    intro retries d rest h
    rw [List.replicate_succ, List.cons_append,
      getJobResultLoop_fail_step maxR retries _ (by omega),
      ih (retries + 1) d rest (by omega)]

/-- C3: the retry wrappers with budget `maxRetries = R` (shown for the two
cited instances, `createAgent` and `getJobResult`, whose loops are the
shared pattern): when every attempt fails they make exactly R + 1 attempts
and then throw the retry-exhausted error; when `k < R` attempts fail and
the next succeeds they return the success value with no error after
exactly k + 1 attempts, and the counter is advanced (with its sleep) only
on the k failed attempts, never on the successful one. -/
theorem retry_wrapper_budget (R k : Nat) (a : AgentData) (d : RawJobResult)
    (rest1 rest2 : List (ApiResponse AgentData))
    (rest3 rest4 : List (ApiResponse RawJobResult))
    (hk : k < R) :
    createAgent R (List.replicate (R + 1) ⟨false, none⟩ ++ rest1) =
      ⟨.exhausted, R + 1, R + 1⟩ ∧
    createAgent R (List.replicate k ⟨false, none⟩ ++ ⟨true, some a⟩ :: rest2) =
      ⟨.returned (some a), k + 1, k⟩ ∧
    getJobResult R (List.replicate (R + 1) ⟨false, none⟩ ++ rest3) =
      ⟨.exhausted, R + 1, R + 1⟩ ∧
    getJobResult R (List.replicate k ⟨false, none⟩ ++ ⟨true, some d⟩ :: rest4) =
      ⟨.fetched ⟨d.data, d.extraction_metadata⟩, k + 1, k⟩ :=
  ⟨createAgentLoop_allFail R (R + 1) 0 rest1 (by omega),
    createAgentLoop_succeeds R k 0 (some a) rest2 (by omega),
    getJobResultLoop_allFail R (R + 1) 0 rest3 (by omega),
    getJobResultLoop_succeeds R k 0 d rest4 (by omega)⟩

/-- Witness for the C3 theorem at `R = 2`, `k = 1`. -/
theorem retry_wrapper_budget_witness :
    createAgent 2 (List.replicate 3 ⟨false, none⟩ ++ []) = ⟨.exhausted, 3, 3⟩ ∧
    createAgent 2 (List.replicate 1 ⟨false, none⟩ ++ ⟨true, some ⟨"a", "nm"⟩⟩ :: []) =
      ⟨.returned (some ⟨"a", "nm"⟩), 2, 1⟩ ∧
    getJobResult 2 (List.replicate 3 ⟨false, none⟩ ++ []) = ⟨.exhausted, 3, 3⟩ ∧
    getJobResult 2 (List.replicate 1 ⟨false, none⟩ ++ ⟨true, some ⟨"d", "m"⟩⟩ :: []) =
      ⟨.fetched ⟨"d", "m"⟩, 2, 1⟩ :=
  retry_wrapper_budget 2 1 ⟨"a", "nm"⟩ ⟨"d", "m"⟩ [] [] [] [] (by decide)

/-- C6: when job creation gets a successful HTTP response whose body
carries CANCELLED or ERROR, the loop treats the attempt as retryable:
it advances the retry counter, sleeps once and keeps going; a creation
response with any other status returns the job id at once. -/
theorem createExtractJob_creation_status (maxR retries : Nat) (i1 i2 : String)
    (st1 st2 : StatusEnum) (rest1 rest2 : List (ApiResponse JobData))
    (hret : retries ≤ maxR)
    (h1 : st1 = .CANCELLED ∨ st1 = .ERROR)
    (h2 : st2 ≠ .CANCELLED) (h2b : st2 ≠ .ERROR) :
    createExtractJobLoop maxR retries (⟨true, some ⟨i1, st1⟩⟩ :: rest1) =
      ⟨(createExtractJobLoop maxR (retries + 1) rest1).outcome,
        (createExtractJobLoop maxR (retries + 1) rest1).attempts + 1,
        (createExtractJobLoop maxR (retries + 1) rest1).sleeps + 1⟩ ∧
    createExtractJobLoop maxR retries (⟨true, some ⟨i2, st2⟩⟩ :: rest2) =
      ⟨.created i2, 1, 0⟩ := by
  constructor
  · rcases h1 with h | h <;> subst h <;>
      simp [createExtractJobLoop, not_lt.mpr hret]
  · simp [createExtractJobLoop, not_lt.mpr hret, h2, h2b]

/-- Witness for the C6 theorem on a CANCELLED creation response. -/
theorem createExtractJob_creation_status_witness :
    createExtractJobLoop 3 1 (⟨true, some ⟨"j-1", .CANCELLED⟩⟩ :: [⟨true, some ⟨"j-2", .PENDING⟩⟩]) =
      ⟨(createExtractJobLoop 3 2 [⟨true, some ⟨"j-2", .PENDING⟩⟩]).outcome,
        (createExtractJobLoop 3 2 [⟨true, some ⟨"j-2", .PENDING⟩⟩]).attempts + 1,
        (createExtractJobLoop 3 2 [⟨true, some ⟨"j-2", .PENDING⟩⟩]).sleeps + 1⟩ ∧
    createExtractJobLoop 3 1 (⟨true, some ⟨"j-3", .PENDING⟩⟩ :: []) = ⟨.created "j-3", 1, 0⟩ :=
  createExtractJob_creation_status 3 1 "j-1" "j-3" .CANCELLED .PENDING
    [⟨true, some ⟨"j-2", .PENDING⟩⟩] [] (by decide) (by decide) (by decide) (by decide)

/-- C5 counterexample: supplying both a file path and raw content is not
rejected: no `InputError` is thrown before a network call, the path wins
silently and the upload call is issued. -/
theorem uploadFile_conflict_cex :
    uploadFile (some "doc.pdf") (some (.fileText "hello")) 10 [⟨true, some "file-1"⟩] =
      ⟨.ok "file-1", 1, some (.fromPath "doc.pdf")⟩ := by
  rfl

/-- C5 (amended): with zero input sources `uploadFile` throws `InputError`
before any network call; when both a path and content are supplied no
error is raised, the path silently takes precedence and the content is
ignored; when exactly one valid source is supplied and the first upload
attempt succeeds, exactly one remote upload call is made. -/
theorem uploadFile_input_validation (p : String) (c : FileContent) (maxR : Nat)
    (trace : List (ApiResponse String)) (id : String) (rest : List (ApiResponse String)) :
    uploadFile none none maxR trace =
      ⟨.error (.inputError "One between filePath and fileContent needs to be provided"),
        0, none⟩ ∧
    uploadFile (some p) (some c) maxR trace = uploadFile (some p) none maxR trace ∧
    uploadFile (some p) none maxR (⟨true, some id⟩ :: rest) =
      ⟨.ok id, 1, some (.fromPath p)⟩ ∧
    uploadFile none (some c) maxR (⟨true, some id⟩ :: rest) =
      ⟨.ok id, 1, some (.fromContent c)⟩ := by
  refine ⟨rfl, rfl, ?_, ?_⟩ <;> simp [uploadFile, uploadLoop, Nat.not_lt_zero]

/-- Every request issued by an agent-lookup retry loop hits the endpoint
the loop was entered with. -/
theorem getAgentLoop_requests_all (req : AgentRequest) (maxR : Nat) :
    ∀ (retries : Nat) (trace : List (ApiResponse AgentData)) (x : AgentRequest),
    x ∈ (getAgentLoop req maxR retries trace).2 → x = req := by
  intro retries trace
  induction trace generalizing retries with
  | nil =>
    intro x hx
    by_cases h : maxR < retries <;> simp [getAgentLoop, h] at hx
  | cons r rest ih =>
    intro x hx
    by_cases h : maxR < retries
    · simp [getAgentLoop, h] at hx
    · by_cases hok : r.ok
      · simp [getAgentLoop, h, hok] at hx
        exact hx
      · simp [getAgentLoop, h, hok] at hx
        rcases hx with hx | hx
        · exact hx
        · exact ih (retries + 1) x hx

/-- C9: `getAgent` with neither identifier throws `InputError` with no
lookup request issued; with both identifiers it emits the warning and
performs the lookup by id only — every request it issues is the by-id
request, the name is never used. -/
theorem getAgent_ambiguity_policy (maxR : Nat) (trace : List (ApiResponse AgentData))
    (i n : String) :
    getAgent none none maxR trace =
      ⟨.error (.inputError "One of `id` and `string` must be passed."), [], false⟩ ∧
    (getAgent (some i) (some n) maxR trace).warned = true ∧
    ∀ req ∈ (getAgent (some i) (some n) maxR trace).requests, req = .byId i := by
  refine ⟨rfl, rfl, ?_⟩
  intro req hreq
  exact getAgentLoop_requests_all (.byId i) maxR 0 trace req hreq

/-- Witness for the C9 theorem. -/
theorem getAgent_ambiguity_policy_witness :
    getAgent none none 2 [⟨true, some ⟨"a", "nm"⟩⟩] =
      ⟨.error (.inputError "One of `id` and `string` must be passed."), [], false⟩ ∧
    (getAgent (some "a") (some "b") 2 [⟨true, some ⟨"a", "nm"⟩⟩]).warned = true ∧
    AgentRequest.byId "a" = AgentRequest.byId "a" := by
  have h := getAgent_ambiguity_policy 2 [⟨true, some ⟨"a", "nm"⟩⟩] "a" "b"
  exact ⟨h.1, h.2.1, h.2.2 (.byId "a") (by decide)⟩

/-- C10: given inputs, the upload phase of `classify` skips every input
whose upload failed (threw, or returned no truthy id) and creates the job
with exactly the ids of the successfully uploaded subset, paths first;
the all-uploads-failed error is raised before job creation exactly when
no upload produced an id. -/
theorem classify_upload_policy (filePaths fileContents : Option (List (Except SdkError String)))
    (hsome : filePaths ≠ none ∨ fileContents ≠ none) :
    classifyUploadPhase filePaths fileContents =
      (if (filePaths.getD []).filterMap classifyAttemptId ++
          (fileContents.getD []).filterMap classifyAttemptId = []
        then .allUploadsFailed
        else .jobCreated ((filePaths.getD []).filterMap classifyAttemptId ++
          (fileContents.getD []).filterMap classifyAttemptId)) ∧
    ((filePaths.getD []).filterMap classifyAttemptId ++
        (fileContents.getD []).filterMap classifyAttemptId = [] ↔
      ((filePaths.getD [] ++ fileContents.getD []).all
        fun r => (classifyAttemptId r).isNone) = true) := by
  constructor
  · match filePaths, fileContents with
    | none, none => rcases hsome with h | h <;> simp at h
    | some ps, none => rfl
    | none, some cs => rfl
    | some ps, some cs => rfl
  · simp [List.append_eq_nil, List.filterMap_eq_nil_iff, List.all_eq_true,
      Option.isNone_iff_eq_none, List.forall_mem_append]

/-- Witness for the C10 theorem: one path upload succeeded, one threw, and
the content upload returned a falsy id. -/
theorem classify_upload_policy_witness :
    classifyUploadPhase (some [Except.ok "x", Except.error SdkError.noResponse])
      (some [Except.ok ""]) =
      (if ((some [Except.ok "x", Except.error SdkError.noResponse] :
            Option (List (Except SdkError String))).getD []).filterMap classifyAttemptId ++
          ((some [Except.ok ""] :
            Option (List (Except SdkError String))).getD []).filterMap classifyAttemptId = []
        then .allUploadsFailed
        else .jobCreated (((some [Except.ok "x", Except.error SdkError.noResponse] :
            Option (List (Except SdkError String))).getD []).filterMap classifyAttemptId ++
          ((some [Except.ok ""] :
            Option (List (Except SdkError String))).getD []).filterMap classifyAttemptId)) ∧
    (((some [Except.ok "x", Except.error SdkError.noResponse] :
          Option (List (Except SdkError String))).getD []).filterMap classifyAttemptId ++
        ((some [Except.ok ""] :
          Option (List (Except SdkError String))).getD []).filterMap classifyAttemptId = [] ↔
      (((some [Except.ok "x", Except.error SdkError.noResponse] :
          Option (List (Except SdkError String))).getD [] ++
        ((some [Except.ok ""] :
          Option (List (Except SdkError String))).getD [])).all
        fun r => (classifyAttemptId r).isNone) = true) :=
  classify_upload_policy (some [Except.ok "x", Except.error SdkError.noResponse])
    (some [Except.ok ""]) (by simp)

/-- C4 (spec-modelled): the k-th inter-poll delay of the backoff poller:
constant keeps the base for all k, linear is min(base + k * step, cap),
exponential is min(base * 2 ^ k, cap). -/
theorem backoff_patterns_closed_form (base step cap : Rat) (k : Nat)
    (hstep : 0 ≤ step) (hbase : 0 ≤ base) (hcap : base ≤ cap) :
    checkIntervalAt .constant base step cap k = base ∧
    checkIntervalAt .linear base step cap k = min (base + (k : Rat) * step) cap ∧
    checkIntervalAt .exponential base step cap k = min (base * 2 ^ k) cap := by
  induction k with
  | zero =>
    refine ⟨rfl, ?_, ?_⟩
    · simp [checkIntervalAt, min_eq_left hcap]
    · simp [checkIntervalAt, min_eq_left hcap]
  | succ k ih =>
    obtain ⟨h1, h2, h3⟩ := ih
    refine ⟨?_, ?_, ?_⟩
    · simp only [checkIntervalAt, nextCheckInterval, h1]
    · simp only [checkIntervalAt, nextCheckInterval, h2]
      rcases le_total (base + (k : Rat) * step) cap with h | h
      · rw [min_eq_left h]
        congr 1
        push_cast
        ring
      · rw [min_eq_right h, min_eq_right (by linarith),
          min_eq_right (by push_cast; nlinarith)]
    · simp only [checkIntervalAt, nextCheckInterval, h3]
      have hpow : (0 : Rat) ≤ base * 2 ^ k := by positivity
      rcases le_total (base * 2 ^ k) cap with h | h
      · rw [min_eq_left h]
        congr 1
        rw [pow_succ]
        ring
      · rw [min_eq_right h, min_eq_right (by linarith),
          min_eq_right (by rw [pow_succ]; nlinarith)]

/-- Witness for the C4 theorem at base 1, step 2, cap 4, k = 2. -/
theorem backoff_patterns_closed_form_witness :
    checkIntervalAt .constant 1 2 4 2 = 1 ∧
    checkIntervalAt .linear 1 2 4 2 = min (1 + (2 : Rat) * 2) 4 ∧
    checkIntervalAt .exponential 1 2 4 2 = min (1 * 2 ^ 2) 4 := by
  have h := backoff_patterns_closed_form 1 2 4 2 (by decide) (by decide) (by decide)
  simpa using h

